import Mathlib

/-!
Verification of the GPS track recording and sync engine of geo-snap-pro.

Shallow embedding of `src/hooks/useGpsTracking.ts` (first, cloud-enabled
variant), `src/lib/offlineStorage` (the IndexedDB pending-photo queue) and
the offline sync hook (`useOfflineSync`).  Browser/environment APIs
(localStorage, Supabase, IndexedDB, `setTimeout`, `Date`, geolocation) are
modelled as explicit state:

* localStorage session slot  -> `EngineState.storage`
* the debounce timeout       -> `TimerState` (live timers with ids, plus the
  `syncTimeoutRef` cell, which may keep the id of an already-fired timer)
* Supabase `track_logs`      -> `RemoteStore` (fresh-id counter + records)
* network success/failure    -> explicit `ok : Bool` inputs
* `Date.now()` / random ids  -> explicit `now` / `rand` inputs

JavaScript truthiness on numbers / strings (`||`, `?:`, `if (x)`) is modelled
by `jsTruthyInt`, `jsStr`, `orStr`, `jsNumOrNone`.  JS floats are modelled by
`ℚ` where they are only stored/rendered, and by `ℝ` in the haversine distance
computation.
-/

namespace GeoSnap

/-- One GPS sample (interface `TrackPoint`, useGpsTracking.ts lines 5-11). -/
structure TrackPoint where
  lat : ℚ
  lng : ℚ
  timestamp : Int
  altitude : Option ℚ := none
  accuracy : Option ℚ := none
deriving Repr, DecidableEq

/-- A photo anchored to a location (interface `PhotoMarker`, lines 13-20). -/
structure PhotoMarker where
  id : String
  lat : ℚ
  lng : ℚ
  imageUrl : String
  timestamp : Int
  notes : Option String := none
deriving Repr, DecidableEq

/-- The aggregate root of one recording session (interface `TrackLog`,
lines 22-30).  `cloudId` is the Supabase record id. -/
structure TrackLog where
  id : String
  startTime : Int
  endTime : Option Int := none
  points : List TrackPoint := []
  photos : List PhotoMarker := []
  cloudId : Option String := none
  projectId : Option String := none
deriving Repr, DecidableEq

/-- JS truthiness of an optional number: `null`/`undefined` and `0` are falsy. -/
def jsTruthyInt (o : Option Int) : Bool :=
  match o with
  | some v => v != 0
  | none => false

/-- JS truthy view of an optional string: `null`/`undefined` and `""` are
falsy.  `jsStr o` is `o` when truthy and `none` otherwise. -/
def jsStr (o : Option String) : Option String :=
  match o with
  | some s => if s = "" then none else some s
  | none => none

/-- JS `a || b` on optional strings: `a` when truthy, else `b`. -/
def orStr (a b : Option String) : Option String :=
  if (jsStr a).isSome then a else b

/-- JS `x || undefined` on an optional number (`position.coords.altitude ||
undefined`, lines 378-379): `0` collapses to `undefined`. -/
def jsNumOrNone (o : Option ℚ) : Option ℚ :=
  match o with
  | some v => if v = 0 then none else some v
  | none => none

/-- Fallback `TrackPoint` used to translate JS array indexing `points[i]`
(always in range in the source loop). -/
def defaultPoint : TrackPoint :=
  { lat := 0, lng := 0, timestamp := 0 }

/-- Model of `Math.atan2` (two-argument arctangent). -/
noncomputable def atan2 (y x : ℝ) : ℝ :=
  if 0 < x then Real.arctan (y / x)
  else if x < 0 then
    (if 0 ≤ y then Real.arctan (y / x) + Real.pi else Real.arctan (y / x) - Real.pi)
  else
    (if 0 < y then Real.pi / 2 else if y < 0 then -(Real.pi / 2) else 0)

/-- Body of the distance loop (`calculateTotalDistance`, lines 68-76): the
haversine great-circle distance between two consecutive samples, with earth
radius `R = 6371e3` meters. -/
noncomputable def haversine (p1 p2 : TrackPoint) : ℝ :=
  let R : ℝ := 6371e3
  let lat1 : ℝ := (p1.lat : ℝ) * Real.pi / 180
  let lat2 : ℝ := (p2.lat : ℝ) * Real.pi / 180
  let dLat : ℝ := ((p2.lat : ℝ) - (p1.lat : ℝ)) * Real.pi / 180
  let dLng : ℝ := ((p2.lng : ℝ) - (p1.lng : ℝ)) * Real.pi / 180
  let a : ℝ := Real.sin (dLat / 2) * Real.sin (dLat / 2) +
    Real.cos lat1 * Real.cos lat2 * Real.sin (dLng / 2) * Real.sin (dLng / 2)
  let c : ℝ := 2 * atan2 (Real.sqrt a) (Real.sqrt (1 - a))
  R * c

/-- Literal translation of the source `for (let i = 1; i < points.length; i++)`
accumulation (lines 64-77): sum of `haversine points[i-1] points[i]` for all
`i` from the given index while `i < points.length`. -/
noncomputable def distFrom (points : List TrackPoint) (i : Nat) : ℝ :=
  if i < points.length then
    haversine (points.getD (i - 1) defaultPoint) (points.getD i defaultPoint) +
      distFrom points (i + 1)
  else 0
termination_by points.length - i
decreasing_by omega

/-- `calculateTotalDistance` (lines 61-79): `0` for fewer than two points,
otherwise the loop starting at index 1. -/
noncomputable def calculateTotalDistance (points : List TrackPoint) : ℝ :=
  if points.length < 2 then 0 else distFrom points 1

/-- Spec-side reading of the distance ("the haversine formula summed over
consecutive point pairs"): structural recursion over consecutive pairs. -/
noncomputable def sumConsecutiveHaversine : List TrackPoint → ℝ
  | [] => 0
  | [_] => 0
  | p :: q :: rest => haversine p q + sumConsecutiveHaversine (q :: rest)

/-- Model of the platform `Date#toISOString`: a fixed, deterministic,
injective rendering of an epoch-millisecond timestamp (the exact digits are a
rendering concern of the Date API, not of this repository). -/
def toISOString (ts : Int) : String :=
  "iso(" ++ toString ts ++ ")"

/-- Model of the JS number-to-string rendering used inside template strings
and `JSON.stringify` (a fixed deterministic rendering of the value). -/
def ratStr (q : ℚ) : String :=
  toString q

/-- JSON string escaping used by the `JSON.stringify` model. -/
def jsonEscape (s : String) : String :=
  (s.replace "\\" "\\\\").replace "\"" "\\\""

/-- A JSON string literal. -/
def quoteJson (s : String) : String :=
  "\"" ++ jsonEscape s ++ "\""

/-- A JSON array out of already-serialized elements. -/
def jsonArr (xs : List String) : String :=
  "[" ++ String.intercalate "," xs ++ "]"

/-- A JSON object out of already-serialized field values (models
`JSON.stringify` of an object literal; whitespace/indentation of the
original `JSON.stringify(geojson, null, 2)` is a fixed rendering concern). -/
def jsonObj (fields : List (String × String)) : String :=
  "\x7b" ++
    String.intercalate "," (fields.map (fun f => quoteJson f.1 ++ ":" ++ f.2)) ++
    "\x7d"

/-- `exportToGeoJSON` (lines 82-125): one LineString feature for the track
(only when there is at least one point), then one Point feature per photo,
wrapped in a FeatureCollection and serialized. -/
def exportToGeoJSON (trackLog : TrackLog) : String :=
  let trackFeatures : List String :=
    if trackLog.points.length > 0 then
      [jsonObj [
        ("type", quoteJson "Feature"),
        ("properties", jsonObj [
          ("type", quoteJson "track"),
          ("id", quoteJson trackLog.id),
          ("startTime", quoteJson (toISOString trackLog.startTime)),
          ("endTime",
            if jsTruthyInt trackLog.endTime then
              quoteJson (toISOString (trackLog.endTime.getD 0))
            else "null"),
          ("pointCount", toString trackLog.points.length)]),
        ("geometry", jsonObj [
          ("type", quoteJson "LineString"),
          ("coordinates", jsonArr (trackLog.points.map (fun p =>
            jsonArr [ratStr p.lng, ratStr p.lat, ratStr (p.altitude.getD 0)])))])]]
    else []
  let photoFeatures : List String := trackLog.photos.map (fun photo =>
    jsonObj [
      ("type", quoteJson "Feature"),
      ("properties", jsonObj [
        ("type", quoteJson "photo"),
        ("id", quoteJson photo.id),
        ("imageUrl", quoteJson photo.imageUrl),
        ("timestamp", quoteJson (toISOString photo.timestamp)),
        ("notes",
          match jsStr photo.notes with
          | some n => quoteJson n
          | none => "null")]),
      ("geometry", jsonObj [
        ("type", quoteJson "Point"),
        ("coordinates", jsonArr [ratStr photo.lng, ratStr photo.lat])])])
  jsonObj [
    ("type", quoteJson "FeatureCollection"),
    ("features", jsonArr (trackFeatures ++ photoFeatures))]

/-- The fixed KML header of `exportToKML` (lines 131-148). -/
def kmlHeader (trackLog : TrackLog) : String :=
  "<?xml version=\"1.0\" encoding=\"UTF-8\"?>\n" ++
  "<kml xmlns=\"http://www.opengis.net/kml/2.2\">\n" ++
  "  <Document>\n" ++
  "    <name>Track Log - " ++ trackLog.id ++ "</name>\n" ++
  "    <description>Exported from GeoSnap Pro</description>\n" ++
  "    <Style id=\"trackStyle\">\n" ++
  "      <LineStyle>\n" ++
  "        <color>ff0000ff</color>\n" ++
  "        <width>4</width>\n" ++
  "      </LineStyle>\n" ++
  "    </Style>\n" ++
  "    <Style id=\"photoStyle\">\n" ++
  "      <IconStyle>\n" ++
  "        <Icon>\n" ++
  "          <href>http://maps.google.com/mapfiles/kml/pushpin/red-pushpin.png</href>\n" ++
  "        </Icon>\n" ++
  "      </IconStyle>\n" ++
  "    </Style>"

/-- The track-path placemark appended by `exportToKML` when there is at least
one point (lines 150-167). -/
def kmlTrackPlacemark (trackLog : TrackLog) : String :=
  let coordinates := String.intercalate "\n          "
    (trackLog.points.map (fun p =>
      ratStr p.lng ++ "," ++ ratStr p.lat ++ "," ++ ratStr (p.altitude.getD 0)))
  "\n    <Placemark>\n" ++
  "      <name>Track Path</name>\n" ++
  "      <description>Start: " ++ toISOString trackLog.startTime ++ "</description>\n" ++
  "      <styleUrl>#trackStyle</styleUrl>\n" ++
  "      <LineString>\n" ++
  "        <altitudeMode>clampToGround</altitudeMode>\n" ++
  "        <coordinates>\n" ++
  "          " ++ coordinates ++ "\n" ++
  "        </coordinates>\n" ++
  "      </LineString>\n" ++
  "    </Placemark>"

/-- The photo placemark appended by `exportToKML` for the photo at the given
zero-based index (lines 169-183). -/
def kmlPhotoPlacemark (index : Nat) (photo : PhotoMarker) : String :=
  "\n    <Placemark>\n" ++
  "      <name>Photo " ++ toString (index + 1) ++ "</name>\n" ++
  "      <description><![CDATA[\n" ++
  "        <img src=\"" ++ photo.imageUrl ++ "\" width=\"200\" />\n" ++
  "        <p>Time: " ++ toISOString photo.timestamp ++ "</p>\n" ++
  "        " ++
    (match jsStr photo.notes with
     | some n => "<p>Notes: " ++ n ++ "</p>"
     | none => "") ++ "\n" ++
  "      ]]></description>\n" ++
  "      <styleUrl>#photoStyle</styleUrl>\n" ++
  "      <Point>\n" ++
  "        <coordinates>" ++ ratStr photo.lng ++ "," ++ ratStr photo.lat ++
    ",0</coordinates>\n" ++
  "      </Point>\n" ++
  "    </Placemark>"

/-- `exportToKML` (lines 128-190). -/
def exportToKML (trackLog : TrackLog) : String :=
  let kml := kmlHeader trackLog
  let kml := if trackLog.points.length > 0 then kml ++ kmlTrackPlacemark trackLog else kml
  let kml := kml ++ String.join (trackLog.photos.enum.map
    (fun e => kmlPhotoPlacemark e.1 e.2))
  kml ++ "\n  </Document>\n</kml>"

/-- A live `setTimeout` registration created by `debouncedSync`: its handle,
its deadline (`now + 5000`), and the track snapshot captured by the timer
callback closure (line 272-274). -/
structure PendingTimer where
  timerId : Nat
  deadline : Int
  snapshot : TrackLog
deriving Repr, DecidableEq

/-- The timer environment: a fresh-handle counter, the set of scheduled
not-yet-fired timers, and the `syncTimeoutRef` cell (which may still hold the
handle of a timer that already fired, since the callback never nulls it). -/
structure TimerState where
  nextId : Nat
  pending : List PendingTimer
  ref : Option Nat
deriving Repr, DecidableEq

/-- The timer environment at hook construction: no timer scheduled,
`syncTimeoutRef.current === null`. -/
def initTimers : TimerState :=
  { nextId := 0, pending := [], ref := none }

/-- `debouncedSync` (lines 268-275): `clearTimeout` on the handle in
`syncTimeoutRef` (a no-op for an already-fired handle), then schedule a new
push of the given snapshot 5000 ms after `now` and store its handle. -/
def debouncedSync (now : Int) (track : TrackLog) (t : TimerState) : TimerState :=
  let cleared :=
    match t.ref with
    | some i => { t with pending := t.pending.filter (fun e => e.timerId != i) }
    | none => t
  { nextId := cleared.nextId + 1,
    pending := cleared.pending ++ [⟨cleared.nextId, now + 5000, track⟩],
    ref := some cleared.nextId }

/-- The `clearTimeout` + `syncTimeoutRef.current = null` pair performed by
`stopTracking` (lines 425-428). -/
def clearTimers (t : TimerState) : TimerState :=
  match t.ref with
  | some i => { t with pending := t.pending.filter (fun e => e.timerId != i), ref := none }
  | none => t

/-- Removal of a timer from the live set once it fires (the runtime side of a
`setTimeout` callback running). -/
def removeTimer (i : Nat) (t : TimerState) : TimerState :=
  { t with pending := t.pending.filter (fun e => e.timerId != i) }

/-- The row written to the Supabase `track_logs` table (the `trackData`
object, lines 219-230). -/
structure TrackData where
  user_id : String
  project_id : Option String
  track_id : String
  start_time : String
  end_time : Option String
  points : List TrackPoint
  photos : List PhotoMarker
  distance_meters : ℝ
  point_count : Nat
  photo_count : Nat

/-- The remote `track_logs` table: a fresh-id counter for rows created by
`insert ... select('id')`, and the rows keyed by their id. -/
structure RemoteStore where
  nextId : Nat
  records : List (String × TrackData)

/-- The id the remote store hands back for the next `insert`. -/
def freshCloudId (r : RemoteStore) : String :=
  "cloud-" ++ toString r.nextId

/-- The `trackData` payload built by `syncToCloud` (lines 216-230):
`project_id` is `track.projectId || projectId || null` (JS `||`), timestamps
are ISO strings, the full point/photo arrays are sent, and the derived stats
are recomputed from scratch. -/
noncomputable def buildTrackData (uid : String) (hookProjectId : Option String)
    (track : TrackLog) : TrackData :=
  { user_id := uid,
    project_id := orStr track.projectId (orStr hookProjectId none),
    track_id := track.id,
    start_time := toISOString track.startTime,
    end_time :=
      if jsTruthyInt track.endTime then some (toISOString (track.endTime.getD 0))
      else none,
    points := track.points,
    photos := track.photos,
    distance_meters := calculateTotalDistance track.points,
    point_count := track.points.length,
    photo_count := track.photos.length }

/-- The network action a push performed: an `insert` or an `update` addressed
by an existing record id. -/
inductive PushTarget where
  | create
  | update (cid : String)
deriving Repr, DecidableEq

/-- An observed push: the snapshot it sent, whether it was a create or an
update, and whether the remote call succeeded. -/
structure SyncEvent where
  snapshot : TrackLog
  target : PushTarget
  ok : Bool
deriving Repr, DecidableEq

/-- The hook state owned by `useGpsTracking` plus the environment slots it
writes: React state (`isTracking`, `currentPosition`, `trackLog`, `error`,
`hasRecoveredSession`), the localStorage session slot (`storage`, written by
`saveSession`/`loadSession`, lines 32-58), and the timer environment.  The
`trackLogRef` shadow always mirrors `trackLog` between callbacks, so it is not
modelled separately. -/
structure EngineState where
  isTracking : Bool
  currentPosition : Option TrackPoint
  trackLog : Option TrackLog
  lastError : Option String
  hasRecoveredSession : Bool
  storage : Option TrackLog
  timers : TimerState

/-- Hook state at construction, over a given localStorage content. -/
def initState (stored : Option TrackLog) : EngineState :=
  { isTracking := false, currentPosition := none, trackLog := none,
    lastError := none, hasRecoveredSession := false, storage := stored,
    timers := initTimers }

/-- The mount effect (lines 277-288): `loadSession()`; if a session exists
and has at least one point it becomes the active log and the recovered flag
is raised.  The end timestamp is not examined. -/
def recoverOnMount (s : EngineState) : EngineState :=
  match s.storage with
  | some savedSession =>
    if savedSession.points.length > 0 then
      { s with trackLog := some savedSession, hasRecoveredSession := true }
    else s
  | none => s

/-- `syncToCloud` (lines 211-265).  `ok` is the outcome of the Supabase call.
With a `cloudId` the push is an `update` addressed by it (lines 232-239);
without one it is an `insert`, and on success the returned id is written onto
the track, into React state and into localStorage (lines 240-257).  Errors
are caught and swallowed (lines 260-262). -/
noncomputable def syncToCloud (userId hookProjectId : Option String) (ok : Bool)
    (track : TrackLog) (s : EngineState) (r : RemoteStore) :
    EngineState × RemoteStore × Option SyncEvent :=
  match jsStr userId with
  | none => (s, r, none)
  | some uid =>
    let trackData := buildTrackData uid hookProjectId track
    match track.cloudId with
    | some cid =>
      if ok then
        (s,
         { r with records := r.records.map (fun e => if e.1 = cid then (cid, trackData) else e) },
         some ⟨track, .update cid, true⟩)
      else (s, r, some ⟨track, .update cid, false⟩)
    | none =>
      if ok then
        let newId := freshCloudId r
        let updatedTrack := { track with cloudId := some newId }
        ({ s with trackLog := some updatedTrack, storage := some updatedTrack },
         { r with nextId := r.nextId + 1, records := r.records ++ [(newId, trackData)] },
         some ⟨track, .create, true⟩)
      else (s, r, some ⟨track, .create, false⟩)

/-- `startTracking` (lines 340-413).  `geoSupported` models
`navigator.geolocation` being present, `now` is `Date.now()`.  A fresh log is
created when no log exists or the existing one carries a (JS-truthy) end
timestamp; otherwise the recovered/open log is reused, optionally restamped
with the caller-supplied project id. -/
def startTracking (hookProjectId : Option String) (geoSupported : Bool)
    (now : Int) (selectedProjectId : Option String) (s : EngineState) : EngineState :=
  if !geoSupported then
    { s with lastError := some "Geolocalizacao nao suportada neste dispositivo" }
  else
    let s := { s with lastError := none }
    let s :=
      match s.trackLog with
      | none =>
        let fresh : TrackLog :=
          { id := "track-" ++ toString now, startTime := now,
            projectId := orStr selectedProjectId hookProjectId }
        { s with trackLog := some fresh, storage := some fresh }
      | some activeTrackLog =>
        if jsTruthyInt activeTrackLog.endTime then
          let fresh : TrackLog :=
            { id := "track-" ++ toString now, startTime := now,
              projectId := orStr selectedProjectId hookProjectId }
          { s with trackLog := some fresh, storage := some fresh }
        else if (jsStr selectedProjectId).isSome then
          let updated := { activeTrackLog with projectId := selectedProjectId }
          { s with trackLog := some updated, storage := some updated }
        else s
    { s with isTracking := true, hasRecoveredSession := false }

/-- The `watchPosition` success callback (lines 373-400): build the point
(with JS `||`-collapsed altitude/accuracy), update `currentPosition`, and if
a log is active append the point, persist, and (when a user is signed in)
schedule a debounced push of the updated snapshot. -/
def handlePosition (userId : Option String) (lat lng : ℚ)
    (altitude accuracy : Option ℚ) (now : Int) (s : EngineState) : EngineState :=
  let point : TrackPoint :=
    { lat := lat, lng := lng, timestamp := now,
      altitude := jsNumOrNone altitude, accuracy := jsNumOrNone accuracy }
  let s := { s with currentPosition := some point }
  match s.trackLog with
  | none => s
  | some prev =>
    let updated := { prev with points := prev.points ++ [point] }
    let s := { s with trackLog := some updated, storage := some updated }
    if (jsStr userId).isSome then
      { s with timers := debouncedSync now updated s.timers }
    else s

/-- `stopTracking` (lines 415-447): clear the watch and wake lock, cancel the
pending debounce timer and null its ref, stamp the end time, persist, and
(when signed in) push immediately; finally drop the recording flag. -/
noncomputable def stopTracking (userId hookProjectId : Option String)
    (now : Int) (ok : Bool) (s : EngineState) (r : RemoteStore) :
    EngineState × RemoteStore × Option SyncEvent :=
  let s := { s with timers := clearTimers s.timers }
  match s.trackLog with
  | none => ({ s with isTracking := false }, r, none)
  | some prev =>
    let updated := { prev with endTime := some now }
    let s1 := { s with trackLog := some updated, storage := some updated }
    if (jsStr userId).isSome then
      let res := syncToCloud userId hookProjectId ok updated s1 r
      ({ res.1 with isTracking := false }, res.2.1, res.2.2)
    else ({ s1 with isTracking := false }, r, none)

/-- The argument of `addPhotoMarker`: a `PhotoMarker` without its id
(`Omit<PhotoMarker, 'id'>`). -/
structure PhotoInput where
  lat : ℚ
  lng : ℚ
  imageUrl : String
  timestamp : Int
  notes : Option String := none
deriving Repr, DecidableEq

/-- `addPhotoMarker` (lines 449-472): build the marker with a fresh
`photo-<now>-<rand>` id and return it; if no log is active nothing else
happens; otherwise append it, persist, and (when signed in) push the updated
snapshot immediately.  The pending debounce timer is not touched. -/
noncomputable def addPhotoMarker (userId hookProjectId : Option String)
    (input : PhotoInput) (now : Int) (rand : String) (ok : Bool)
    (s : EngineState) (r : RemoteStore) :
    PhotoMarker × EngineState × RemoteStore × Option SyncEvent :=
  let newMarker : PhotoMarker :=
    { id := "photo-" ++ toString now ++ "-" ++ rand,
      lat := input.lat, lng := input.lng, imageUrl := input.imageUrl,
      timestamp := input.timestamp, notes := input.notes }
  match s.trackLog with
  | none => (newMarker, s, r, none)
  | some prev =>
    let updated := { prev with photos := prev.photos ++ [newMarker] }
    let s1 := { s with trackLog := some updated, storage := some updated }
    if (jsStr userId).isSome then
      let res := syncToCloud userId hookProjectId ok updated s1 r
      (newMarker, res.1, res.2.1, res.2.2)
    else (newMarker, s1, r, none)

/-- `clearTrackLog` (lines 474-483): stop first if recording, then discard
the log, the current position, the recovered flag, and the stored session. -/
noncomputable def clearTrackLog (userId hookProjectId : Option String)
    (now : Int) (ok : Bool) (s : EngineState) (r : RemoteStore) :
    EngineState × RemoteStore × Option SyncEvent :=
  let res :=
    if s.isTracking then stopTracking userId hookProjectId now ok s r
    else (s, r, none)
  let s1 := res.1
  ({ s1 with
      trackLog := none
      currentPosition := none
      storage := none
      hasRecoveredSession := false },
   res.2.1, res.2.2)

/-- `forceSync` (lines 514-519): push the current log immediately when a log
and a signed-in user exist. -/
noncomputable def forceSync (userId hookProjectId : Option String) (ok : Bool)
    (s : EngineState) (r : RemoteStore) :
    EngineState × RemoteStore × Option SyncEvent :=
  match s.trackLog with
  | some trackLog =>
    if (jsStr userId).isSome then syncToCloud userId hookProjectId ok trackLog s r
    else (s, r, none)
  | none => (s, r, none)

/-- A scheduled timer firing: run the captured callback
`() => syncToCloud(track)` (line 272-274) on the snapshot the closure holds. -/
noncomputable def fireTimer (userId hookProjectId : Option String)
    (timerId : Nat) (ok : Bool) (s : EngineState) (r : RemoteStore) :
    EngineState × RemoteStore × Option SyncEvent :=
  match s.timers.pending.find? (fun e => e.timerId == timerId) with
  | none => (s, r, none)
  | some e =>
    let s1 := { s with timers := removeTimer timerId s.timers }
    syncToCloud userId hookProjectId ok e.snapshot s1 r

/-- One engine event: a user command, a geolocation sample, or a debounce
timer firing.  `ok` flags carry the outcome of the remote call the event may
trigger; `now`/`rand` stand for `Date.now()`/`Math.random()`. -/
inductive Op where
  | start (now : Int) (selectedProjectId : Option String) (geoSupported : Bool)
  | sample (lat lng : ℚ) (altitude accuracy : Option ℚ) (now : Int)
  | photo (input : PhotoInput) (now : Int) (rand : String) (ok : Bool)
  | stop (now : Int) (ok : Bool)
  | clearLog (now : Int) (ok : Bool)
  | fire (timerId : Nat) (ok : Bool)
  | force (ok : Bool)

/-- One step of the engine over a full configuration (hook state + remote
table), returning the push the step performed, if any. -/
noncomputable def stepOp (userId hookProjectId : Option String)
    (c : EngineState × RemoteStore) (op : Op) :
    (EngineState × RemoteStore) × Option SyncEvent :=
  match op with
  | .start now selectedProjectId geoSupported =>
    ((startTracking hookProjectId geoSupported now selectedProjectId c.1, c.2), none)
  | .sample lat lng altitude accuracy now =>
    ((handlePosition userId lat lng altitude accuracy now c.1, c.2), none)
  | .photo input now rand ok =>
    let res := addPhotoMarker userId hookProjectId input now rand ok c.1 c.2
    ((res.2.1, res.2.2.1), res.2.2.2)
  | .stop now ok =>
    let res := stopTracking userId hookProjectId now ok c.1 c.2
    ((res.1, res.2.1), res.2.2)
  | .clearLog now ok =>
    let res := clearTrackLog userId hookProjectId now ok c.1 c.2
    ((res.1, res.2.1), res.2.2)
  | .fire timerId ok =>
    let res := fireTimer userId hookProjectId timerId ok c.1 c.2
    ((res.1, res.2.1), res.2.2)
  | .force ok =>
    let res := forceSync userId hookProjectId ok c.1 c.2
    ((res.1, res.2.1), res.2.2)

/-- Run a sequence of engine events from a configuration. -/
noncomputable def runOps (userId hookProjectId : Option String)
    (c : EngineState × RemoteStore) : List Op → EngineState × RemoteStore
  | [] => c
  | op :: rest => runOps userId hookProjectId (stepOp userId hookProjectId c op).1 rest

/-- The requested export format of `exportTrack`. -/
inductive ExportFormat where
  | geojson
  | kml
deriving Repr, DecidableEq

/-- `exportTrack` (lines 485-506): with no active log or zero points it
reports "nothing to export" and produces no file (modelled by `none`); state
is untouched.  Otherwise it produces `track-<id>.<ext>` with the document in
the requested format. -/
def exportTrack (format : ExportFormat) (s : EngineState) :
    EngineState × Option (String × String) :=
  match s.trackLog with
  | none => (s, none)
  | some trackLog =>
    if trackLog.points.length = 0 then (s, none)
    else
      let content :=
        match format with
        | .kml => exportToKML trackLog
        | .geojson => exportToGeoJSON trackLog
      let extension :=
        match format with
        | .kml => "kml"
        | .geojson => "geojson"
      (s, some ("track-" ++ trackLog.id ++ "." ++ extension, content))

/-- An `OfflinePhoto` row of the IndexedDB `pending-photos` store
(offlineStorage, lines 117-129).  The raw image bytes (`blob`) are opaque. -/
structure OfflinePhoto where
  id : String
  user_id : String
  project_id : String
  blob : String
  latitude : ℚ
  longitude : ℚ
  accuracy : Option ℚ := none
  altitude : Option ℚ := none
  notes : Option String := none
  timestamp : String
  created_at : String
deriving Repr, DecidableEq

/-- The body of the drain loop of `syncPhotos` (useOfflineSync, lines 32-72):
`env photo` gives the outcomes of the storage upload and the database insert.
An item is removed from the local queue only when both succeed; on any
failure it stays and the loop moves on, counting the failure. -/
def syncLoopStep (env : OfflinePhoto → Bool × Bool)
    (acc : List OfflinePhoto × Nat × Nat) (photo : OfflinePhoto) :
    List OfflinePhoto × Nat × Nat :=
  let outcome := env photo
  if outcome.1 && outcome.2 then (acc.1, acc.2.1 + 1, acc.2.2)
  else (acc.1 ++ [photo], acc.2.1, acc.2.2 + 1)

/-- `syncPhotos` (useOfflineSync, lines 16-83): the guard
`if (!userId || !isOnline || isSyncing) return` (JS truthiness on `userId`),
then one drain pass over the queue in arrival order.  Result: the queue
afterwards, the success count, the failure count, and whether a drain ran. -/
def syncPhotos (userId : Option String) (isOnline isSyncing : Bool)
    (env : OfflinePhoto → Bool × Bool) (queue : List OfflinePhoto) :
    List OfflinePhoto × Nat × Nat × Bool :=
  if !(jsStr userId).isSome || !isOnline || isSyncing then (queue, 0, 0, false)
  else
    let res := queue.foldl (syncLoopStep env) ([], 0, 0)
    (res.1, res.2.1, res.2.2, true)

/-- The user id of the concrete runs below. -/
def cexUserId : Option String := some "user-1"

/-- Start at `t = 0`, one GPS sample at `t = 1000` (which schedules a
debounced push of a snapshot that has no `cloudId` yet), then
`addPhotoMarker` at `t = 2000`, whose immediate push creates the remote
record and stores the returned `cloudId`. -/
def cexOpsPrefix : List Op :=
  [Op.start 0 none true,
   Op.sample 0 0 none none 1000,
   Op.photo ⟨0, 0, "https://example.test/photo.jpg", 1500, none⟩ 2000 "abc" true]

/-- The configuration right after the photo push succeeded: the active log
has one point, one photo, and `cloudId = "cloud-0"`; the debounce timer
scheduled at `t = 1000` is still pending with the stale pre-photo,
pre-`cloudId` snapshot. -/
noncomputable def cexMid : EngineState × RemoteStore :=
  runOps cexUserId none (initState none, { nextId := 0, records := [] }) cexOpsPrefix

/-- The configuration after the pending debounce timer fires and its push
succeeds. -/
noncomputable def cexFinal : EngineState × RemoteStore :=
  (stepOp cexUserId none cexMid (Op.fire 0 true)).1

/-- The timer-environment invariant maintained by the engine: at most one
live timer, and `syncTimeoutRef` holds its handle (so the
`clearTimeout(syncTimeoutRef.current)` in `debouncedSync`/`stopTracking`
really cancels it). -/
def TimerInv (t : TimerState) : Prop :=
  t.pending = [] ∨ ∃ e, t.pending = [e] ∧ t.ref = some e.timerId

/-- A sample point fixture for concrete instantiations. -/
def wPoint : TrackPoint :=
  { lat := 1, lng := 2, timestamp := 1000 }

/-- An open one-point session fixture. -/
def wLog : TrackLog :=
  { id := "track-w", startTime := 0, points := [wPoint] }

/-- A closed (ended) one-point session fixture, as left in localStorage by
`stopTracking`. -/
def cexEndedLog : TrackLog :=
  { id := "track-e", startTime := 0, endTime := some 5, points := [wPoint] }

/-- A hook state with an active unsynced one-point log and a pending debounce
timer for it (the state right after the first GPS sample of a session, as
built by `handlePosition` at `t = 1000`). -/
def c3State : EngineState :=
  { isTracking := true, currentPosition := some wPoint, trackLog := some wLog,
    lastError := none, hasRecoveredSession := false, storage := some wLog,
    timers := { nextId := 1, pending := [⟨0, 6000, wLog⟩], ref := some 0 } }

/-- An empty remote table fixture. -/
def c3Remote : RemoteStore :=
  { nextId := 0, records := [] }

/-- A pending offline photo fixture. -/
def wPhoto : OfflinePhoto :=
  { id := "p1", user_id := "u", project_id := "proj", blob := "bytes1",
    latitude := 1, longitude := 2, timestamp := "t1", created_at := "c1" }

/-- A second pending offline photo fixture. -/
def wPhoto2 : OfflinePhoto :=
  { id := "p2", user_id := "u", project_id := "proj", blob := "bytes2",
    latitude := 3, longitude := 4, timestamp := "t2", created_at := "c2" }

/-- An upload/insert outcome oracle under which `p1` succeeds and everything
else fails its upload. -/
def wEnv : OfflinePhoto → Bool × Bool :=
  fun photo => (photo.id == "p1", true)

/-- A hook state whose active log is the one-point fixture `wLog`. -/
def wState : EngineState :=
  { isTracking := false, currentPosition := none, trackLog := some wLog,
    lastError := none, hasRecoveredSession := false, storage := some wLog,
    timers := initTimers }

/-! Theorems. -/

theorem distFrom_stop (points : List TrackPoint) (i : Nat)
    (h : ¬ i < points.length) : distFrom points i = 0 := by
  rw [distFrom, if_neg h]

theorem distFrom_cons (p : TrackPoint) (points : List TrackPoint) :
    ∀ k i, 1 ≤ i → points.length ≤ i + k →
      distFrom (p :: points) (i + 1) = distFrom points i := by
  intro k
  induction k with
  | zero =>
    intro i h1 h2
    have hx : ¬ i < points.length := by omega
    have hy : ¬ i + 1 < (p :: points).length := by
      simp only [List.length_cons]; omega
    rw [distFrom_stop _ _ hy, distFrom_stop _ _ hx]
  | succ k ih =>
    intro i h1 h2
    by_cases hlt : i < points.length
    · have hy : i + 1 < (p :: points).length := by
        simp only [List.length_cons]; omega
      rw [distFrom, if_pos hy]
      conv_rhs => rw [distFrom, if_pos hlt]
      obtain ⟨j, rfl⟩ : ∃ j, i = j + 1 := ⟨i - 1, by omega⟩
      have g1 : (p :: points).getD (j + 1 + 1 - 1) defaultPoint =
          points.getD (j + 1 - 1) defaultPoint := by
        simp [List.getD_cons_succ]
      have g2 : (p :: points).getD (j + 1 + 1) defaultPoint =
          points.getD (j + 1) defaultPoint := by
        simp [List.getD_cons_succ]
      rw [g1, g2, ih (j + 1 + 1) (by omega) (by omega)]
    · have hy : ¬ i + 1 < (p :: points).length := by
        simp only [List.length_cons]; omega
      rw [distFrom_stop _ _ hy, distFrom_stop _ _ hlt]

theorem distFrom_one (points : List TrackPoint) :
    distFrom points 1 = sumConsecutiveHaversine points := by
  induction points with
  | nil => rw [distFrom_stop _ _ (by simp), sumConsecutiveHaversine]
  | cons p tail ih =>
    cases tail with
    | nil =>
      rw [distFrom_stop _ _ (by simp), sumConsecutiveHaversine]
    | cons q t =>
      have h1 : 1 < (p :: q :: t).length := by simp
      rw [distFrom, if_pos h1]
      have h2 : distFrom (p :: q :: t) (1 + 1) = distFrom (q :: t) 1 :=
        distFrom_cons p (q :: t) (q :: t).length 1 (by omega) (by omega)
      have g1 : (p :: q :: t).getD (1 - 1) defaultPoint = p := by simp
      have g2 : (p :: q :: t).getD 1 defaultPoint = q := by simp
      rw [g1, g2, h2, ih, sumConsecutiveHaversine]

/-- C9: the distance sent with each push is the haversine (earth radius
6371e3 m) great-circle distance summed over consecutive point pairs, and a
list with fewer than two points yields exactly 0. -/
theorem c9_distance :
    (∀ points, calculateTotalDistance points = sumConsecutiveHaversine points) ∧
    (∀ points : List TrackPoint, points.length < 2 → calculateTotalDistance points = 0) ∧
    (∀ uid hookProjectId track,
      (buildTrackData uid hookProjectId track).distance_meters =
        sumConsecutiveHaversine track.points) := by
  have main : ∀ points, calculateTotalDistance points = sumConsecutiveHaversine points := by
    intro ps
    rw [calculateTotalDistance]
    by_cases h : ps.length < 2
    · rw [if_pos h]
      cases ps with
      | nil => rw [sumConsecutiveHaversine]
      | cons p tail =>
        cases tail with
        | nil => rw [sumConsecutiveHaversine]
        | cons q t => simp only [List.length_cons] at h; omega
    · rw [if_neg h, distFrom_one]
  refine ⟨main, fun ps h => ?_, fun uid hp track => ?_⟩
  · rw [calculateTotalDistance, if_pos h]
  · show calculateTotalDistance track.points = _
    rw [main]

/-- Witness for C9 at a concrete single-point log: the computed distance is
exactly 0. -/
theorem c9_distance_witness : calculateTotalDistance [wPoint] = 0 :=
  c9_distance.2.1 [wPoint] (by decide)

theorem debouncedSync_of_inv (t : TimerState) (now : Int) (track : TrackLog)
    (h : TimerInv t) :
    debouncedSync now track t =
      { nextId := t.nextId + 1, pending := [⟨t.nextId, now + 5000, track⟩],
        ref := some t.nextId } := by
  rcases h with h | ⟨e, he, hr⟩
  · cases href : t.ref with
    | none => simp [debouncedSync, href, h]
    | some i => simp [debouncedSync, href, h]
  · simp [debouncedSync, hr, he]

/-- C4: the debounce mechanism keeps at most one push scheduled: scheduling
cancels the pending timer and replaces it with a single timer for the latest
snapshot, due 5000 ms after the scheduling instant; firing and cancelling
preserve the single-timer invariant, and the invariant bounds the number of
scheduled pushes by one. -/
theorem c4_debounce :
    TimerInv initTimers ∧
    (∀ t now track, TimerInv t →
      (debouncedSync now track t).pending = [⟨t.nextId, now + 5000, track⟩] ∧
      TimerInv (debouncedSync now track t)) ∧
    (∀ t i, TimerInv t → TimerInv (removeTimer i t)) ∧
    (∀ t, TimerInv t → (clearTimers t).pending = [] ∧ TimerInv (clearTimers t)) ∧
    (∀ t, TimerInv t → t.pending.length ≤ 1) := by
  refine ⟨Or.inl rfl, ?_, ?_, ?_, ?_⟩
  · intro t now track h
    rw [debouncedSync_of_inv t now track h]
    exact ⟨rfl, Or.inr ⟨⟨t.nextId, now + 5000, track⟩, rfl, rfl⟩⟩
  · intro t i h
    rcases h with h | ⟨e, he, hr⟩
    · exact Or.inl (by simp [removeTimer, h])
    · by_cases hei : e.timerId = i
      · exact Or.inl (by simp [removeTimer, he, hei])
      · exact Or.inr ⟨e, by simp [removeTimer, he, hei], hr⟩
  · intro t h
    rcases h with h | ⟨e, he, hr⟩
    · cases href : t.ref with
      | none => constructor <;> simp [clearTimers, href, h, TimerInv]
      | some i => constructor <;> simp [clearTimers, href, h, TimerInv]
    · have : (clearTimers t).pending = [] := by simp [clearTimers, hr, he]
      exact ⟨this, Or.inl this⟩
  · intro t h
    rcases h with h | ⟨e, he, hr⟩
    · simp [h]
    · simp [he]

/-- Witness for C4: scheduling on the initial timer environment yields
exactly one pending push, for that snapshot, due at 5000. -/
theorem c4_debounce_witness :
    (debouncedSync 0 wLog initTimers).pending = [⟨0, 5000, wLog⟩] :=
  (c4_debounce.2.1 initTimers 0 wLog (Or.inl rfl)).1

theorem syncLoop_spec (env : OfflinePhoto → Bool × Bool) :
    ∀ (queue acc : List OfflinePhoto) (s e : Nat),
      queue.foldl (syncLoopStep env) (acc, s, e) =
        (acc ++ queue.filter (fun p => !((env p).1 && (env p).2)),
         s + (queue.filter (fun p => (env p).1 && (env p).2)).length,
         e + (queue.filter (fun p => !((env p).1 && (env p).2))).length) := by
  intro queue
  induction queue with
  | nil => intro acc s e; simp
  | cons ph rest ih =>
    intro acc s e
    simp only [List.foldl_cons]
    cases hp : (env ph).1 && (env ph).2 with
    | true =>
      have hstep : syncLoopStep env (acc, s, e) ph = (acc, s + 1, e) := by
        simp [syncLoopStep, hp]
      have hfpos : List.filter (fun p => (env p).1 && (env p).2) (ph :: rest) =
          ph :: List.filter (fun p => (env p).1 && (env p).2) rest := by
        rw [List.filter_cons, if_pos hp]
      have hfneg : List.filter (fun p => !((env p).1 && (env p).2)) (ph :: rest) =
          List.filter (fun p => !((env p).1 && (env p).2)) rest := by
        rw [List.filter_cons, if_neg]
        simp [hp]
      rw [hstep, ih, hfpos, hfneg]
      simp only [Prod.mk.injEq, List.length_cons]
      exact ⟨trivial, by omega, trivial⟩
    | false =>
      have hstep : syncLoopStep env (acc, s, e) ph = (acc ++ [ph], s, e + 1) := by
        simp [syncLoopStep, hp]
      have hfpos : List.filter (fun p => (env p).1 && (env p).2) (ph :: rest) =
          List.filter (fun p => (env p).1 && (env p).2) rest := by
        rw [List.filter_cons, if_neg]
        simp [hp]
      have hfneg : List.filter (fun p => !((env p).1 && (env p).2)) (ph :: rest) =
          ph :: List.filter (fun p => !((env p).1 && (env p).2)) rest := by
        rw [List.filter_cons, if_pos]
        simp [hp]
      rw [hstep, ih, hfpos, hfneg]
      simp only [Prod.mk.injEq, List.length_cons, List.append_assoc,
        List.singleton_append]
      exact ⟨trivial, trivial, by omega⟩

/-- C5: one drain pass of the offline photo queue deletes an item exactly
when both its upload and its insert succeed, keeps every failed item (in
order) for the next pass, reports the success and failure counts, and a drain
does not start while another one is running (the `isSyncing` guard). -/
theorem c5_offline_queue (uid : String) (env : OfflinePhoto → Bool × Bool)
    (queue : List OfflinePhoto) (huid : uid ≠ "") :
    (syncPhotos (some uid) true false env queue =
      (queue.filter (fun p => !((env p).1 && (env p).2)),
       (queue.filter (fun p => (env p).1 && (env p).2)).length,
       (queue.filter (fun p => !((env p).1 && (env p).2))).length,
       true)) ∧
    (∀ photo, photo ∈ (syncPhotos (some uid) true false env queue).1 ↔
      photo ∈ queue ∧ ¬((env photo).1 = true ∧ (env photo).2 = true)) ∧
    (syncPhotos (some uid) true true env queue = (queue, 0, 0, false)) := by
  have hguard : (!(jsStr (some uid)).isSome || !true || false) = false := by
    simp [jsStr, huid]
  have hmain : syncPhotos (some uid) true false env queue =
      (queue.filter (fun p => !((env p).1 && (env p).2)),
       (queue.filter (fun p => (env p).1 && (env p).2)).length,
       (queue.filter (fun p => !((env p).1 && (env p).2))).length,
       true) := by
    rw [syncPhotos, hguard]
    simp only [Bool.false_eq_true, if_false]
    rw [syncLoop_spec env queue [] 0 0]
    simp
  refine ⟨hmain, fun photo => ?_, ?_⟩
  · rw [hmain]
    cases h1 : (env photo).1 <;> cases h2 : (env photo).2 <;>
      simp [List.mem_filter, h1, h2]
  · rw [syncPhotos]
    simp

/-- Witness for C5 on a two-item queue where the first item succeeds and the
second fails its upload: the first is deleted, the second stays, counts are
reported, and the guarded call does not drain. -/
theorem c5_offline_queue_witness :
    syncPhotos (some "u") true false wEnv [wPhoto, wPhoto2] = ([wPhoto2], 1, 1, true) ∧
    syncPhotos (some "u") true true wEnv [wPhoto, wPhoto2] = ([wPhoto, wPhoto2], 0, 0, false) := by
  have h := c5_offline_queue "u" wEnv [wPhoto, wPhoto2] (by decide)
  refine ⟨?_, h.2.2⟩
  rw [h.1]
  decide

/-- C7: both exporters are pure functions of the `TrackLog`, so exporting the
same (unmutated) log twice yields byte-identical output in both formats. -/
theorem c7_export_deterministic (t1 t2 : TrackLog) (h : t1 = t2) :
    exportToGeoJSON t1 = exportToGeoJSON t2 ∧ exportToKML t1 = exportToKML t2 := by
  subst h
  exact ⟨rfl, rfl⟩

/-- Witness for C7 at a concrete log. -/
theorem c7_export_deterministic_witness :
    exportToGeoJSON wLog = exportToGeoJSON wLog ∧ exportToKML wLog = exportToKML wLog :=
  c7_export_deterministic wLog wLog rfl

/-- C8: `exportTrack` leaves the state unchanged, produces no file exactly
when there is no active log or the log has zero points, and with at least one
point produces the `track-<id>.<ext>` file with the document in the requested
format. -/
theorem c8_export_guard (format : ExportFormat) (s : EngineState) :
    (exportTrack format s).1 = s ∧
    ((exportTrack format s).2 = none ↔
      s.trackLog = none ∨ ∃ t, s.trackLog = some t ∧ t.points = []) ∧
    (∀ t, s.trackLog = some t → t.points ≠ [] →
      (exportTrack format s).2 =
        some ("track-" ++ t.id ++ "." ++
            (match format with | .kml => "kml" | .geojson => "geojson"),
          match format with | .kml => exportToKML t | .geojson => exportToGeoJSON t)) := by
  cases hlog : s.trackLog with
  | none => simp [exportTrack, hlog]
  | some t =>
    by_cases hp : t.points.length = 0
    · have hpe : t.points = [] := List.length_eq_zero.mp hp
      simp [exportTrack, hlog, hp, hpe]
    · have hpe : t.points ≠ [] := fun hh => hp (by simp [hh])
      simp [exportTrack, hlog, hp, hpe]

/-- Witness for C8: a one-point log exports to a GeoJSON file. -/
theorem c8_export_guard_witness :
    (exportTrack ExportFormat.geojson wState).2 =
      some ("track-" ++ wLog.id ++ ".geojson", exportToGeoJSON wLog) :=
  (c8_export_guard ExportFormat.geojson wState).2.2 wLog rfl (by decide)

/-- C10: `addPhotoMarker` with no active log still builds and returns a fresh
`photo-<now>-<rand>` marker, but records it nowhere: state, storage and the
remote store are untouched and no push happens. -/
theorem c10_photo_without_log (userId hookProjectId : Option String)
    (input : PhotoInput) (now : Int) (rand : String) (ok : Bool)
    (s : EngineState) (r : RemoteStore) (h : s.trackLog = none) :
    addPhotoMarker userId hookProjectId input now rand ok s r =
      ({ id := "photo-" ++ toString now ++ "-" ++ rand, lat := input.lat,
         lng := input.lng, imageUrl := input.imageUrl,
         timestamp := input.timestamp, notes := input.notes },
       s, r, none) := by
  simp [addPhotoMarker, h]

/-- Witness for C10 at a concrete call with no active log. -/
theorem c10_photo_without_log_witness :
    addPhotoMarker (some "user-1") none ⟨1, 2, "url-w", 3, none⟩ 7 "zz" true
        (initState none) c3Remote =
      (⟨"photo-7-zz", 1, 2, "url-w", 3, none⟩, initState none, c3Remote, none) :=
  c10_photo_without_log (some "user-1") none ⟨1, 2, "url-w", 3, none⟩ 7 "zz" true
    (initState none) c3Remote rfl

/-- C2 counterexample: localStorage holds a log with an end timestamp
(`endTime = 5`) and one point — the session `stopTracking` leaves behind.
The claim predicts recovery must not happen (it requires "no end timestamp"),
but the mount effect recovers it: the recovered flag is raised. -/
theorem c2_recovery_counterexample :
    ¬(((recoverOnMount (initState (some cexEndedLog))).hasRecoveredSession = true) ↔
      (cexEndedLog.endTime = none ∧ cexEndedLog.points ≠ [])) := by
  decide

/-- C2 amended: recovery succeeds exactly when the stored log has at least
one point — the end timestamp is not examined.  In that case the stored log
becomes the active log and the recovered flag is set; recording is never
resumed automatically (`isTracking` stays false); otherwise nothing changes. -/
theorem c2_recovery_amended (stored : Option TrackLog) :
    ((recoverOnMount (initState stored)).hasRecoveredSession = true ↔
      ∃ t, stored = some t ∧ t.points ≠ []) ∧
    (recoverOnMount (initState stored)).isTracking = false ∧
    (∀ t, stored = some t → t.points ≠ [] →
      (recoverOnMount (initState stored)).trackLog = some t) ∧
    (∀ t, stored = some t → t.points = [] →
      recoverOnMount (initState stored) = initState stored) := by
  cases stored with
  | none => simp [recoverOnMount, initState]
  | some t =>
    by_cases hp : t.points = []
    · simp [recoverOnMount, initState, hp]
    · have hl : 0 < t.points.length := List.length_pos.mpr hp
      simp [recoverOnMount, initState, hl, hp]

/-- Witness for C2 (amended): recovering a stored open one-point session
makes it the active log. -/
theorem c2_recovery_amended_witness :
    (recoverOnMount (initState (some wLog))).trackLog = some wLog :=
  (c2_recovery_amended (some wLog)).2.2.1 wLog rfl (by decide)

theorem clearTimers_spec (t : TimerState) (h : TimerInv t) :
    (clearTimers t).pending = [] ∧ (clearTimers t).ref = none := by
  rcases h with h | ⟨e, he, hr⟩
  · cases href : t.ref with
    | none => simp [clearTimers, href, h]
    | some i => simp [clearTimers, href, h]
  · simp [clearTimers, hr, he]

theorem syncToCloud_event (uid : String) (hookProjectId : Option String)
    (ok : Bool) (track : TrackLog) (s : EngineState) (r : RemoteStore)
    (huid : uid ≠ "") :
    (∃ ev, (syncToCloud (some uid) hookProjectId ok track s r).2.2 = some ev ∧
      ev.snapshot = track ∧ ev.ok = ok) ∧
    (syncToCloud (some uid) hookProjectId ok track s r).1.timers = s.timers := by
  have hj : jsStr (some uid) = some uid := by simp [jsStr, huid]
  cases hc : track.cloudId with
  | none => cases ok <;> simp [syncToCloud, hj, hc]
  | some cid => cases ok <;> simp [syncToCloud, hj, hc]

/-- C3 counterexample: on a state with an active unsynced log and a pending
debounce timer, `addPhotoMarker` performs its immediate push but does not
cancel the pending timer — it is still scheduled afterwards, contradicting
the claim that both bypasses cancel a pending timer first. -/
theorem c3_bypass_counterexample :
    (addPhotoMarker (some "user-1") none ⟨0, 0,
        "https://example.test/p.jpg", 1500, none⟩ 2000 "abc" true
        c3State c3Remote).2.1.timers.pending ≠ [] ∧
    (addPhotoMarker (some "user-1") none ⟨0, 0,
        "https://example.test/p.jpg", 1500, none⟩ 2000 "abc" true
        c3State c3Remote).2.2.2 ≠ none := by
  decide

/-- C3 amended: `stopTracking` cancels the pending debounce timer (and nulls
its ref) and then performs an immediate push of the end-stamped snapshot;
`addPhotoMarker` performs an immediate push of the marker-extended snapshot
but leaves the timer environment — including any pending debounce timer —
untouched. -/
theorem c3_bypass_amended (uid : String) (hookProjectId : Option String)
    (now : Int) (ok : Bool) (s : EngineState) (r : RemoteStore) (t : TrackLog)
    (input : PhotoInput) (rand : String)
    (huid : uid ≠ "") (ht : s.trackLog = some t) (hinv : TimerInv s.timers) :
    ((stopTracking (some uid) hookProjectId now ok s r).1.timers.pending = [] ∧
     (stopTracking (some uid) hookProjectId now ok s r).1.timers.ref = none ∧
     ∃ ev, (stopTracking (some uid) hookProjectId now ok s r).2.2 = some ev ∧
       ev.snapshot = { t with endTime := some now } ∧ ev.ok = ok) ∧
    ((addPhotoMarker (some uid) hookProjectId input now rand ok s r).2.1.timers
        = s.timers ∧
     ∃ ev, (addPhotoMarker (some uid) hookProjectId input now rand ok s r).2.2.2
         = some ev ∧
       ev.snapshot = { t with photos := t.photos ++
         [{ id := "photo-" ++ toString now ++ "-" ++ rand, lat := input.lat,
            lng := input.lng, imageUrl := input.imageUrl,
            timestamp := input.timestamp, notes := input.notes }] } ∧
       ev.ok = ok) := by
  have hj : jsStr (some uid) = some uid := by simp [jsStr, huid]
  have hclear := clearTimers_spec s.timers hinv
  constructor
  · simp only [stopTracking, ht, hj, Option.isSome_some, if_true]
    refine ⟨?_, ?_, ?_⟩
    · rw [(syncToCloud_event uid hookProjectId ok _ _ r huid).2]
      exact hclear.1
    · rw [(syncToCloud_event uid hookProjectId ok _ _ r huid).2]
      exact hclear.2
    · exact (syncToCloud_event uid hookProjectId ok _ _ r huid).1
  · simp only [addPhotoMarker, ht, hj, Option.isSome_some, if_true]
    constructor
    · rw [(syncToCloud_event uid hookProjectId ok _ _ r huid).2]
    · exact (syncToCloud_event uid hookProjectId ok _ _ r huid).1

/-- Witness for C3 (amended) at a concrete stop call on the pending-timer
state: the timer set is emptied and an immediate push of the end-stamped
snapshot is performed. -/
theorem c3_bypass_amended_witness :
    (stopTracking (some "user-1") none 9000 true c3State c3Remote).1.timers.pending
      = [] :=
  (c3_bypass_amended "user-1" none 9000 true c3State c3Remote wLog
    ⟨0, 0, "https://example.test/p.jpg", 1500, none⟩ "abc"
    (by decide) rfl (Or.inr ⟨⟨0, 6000, wLog⟩, rfl, rfl⟩)).1.1

/-- C1 at its failing input (the run `cexOpsPrefix` then the timer firing):
after the photo push the log's remote id is `cloud-0`, yet the pending
debounced push — whose captured snapshot predates the assignment — performs a
second create for the same session: the remote table ends with two records
for track `track-0` and the log's remote id is overwritten to `cloud-1`. -/
theorem c1_duplicate_create :
    cexMid.1.trackLog.map TrackLog.cloudId = some (some "cloud-0") ∧
    cexFinal.1.trackLog.map TrackLog.cloudId = some (some "cloud-1") ∧
    cexFinal.2.records.map (fun e => e.2.track_id) = ["track-0", "track-0"] ∧
    cexMid.1.trackLog.map TrackLog.id = some "track-0" ∧
    cexFinal.1.trackLog.map TrackLog.id = some "track-0" := by
  decide

/-- C6 at its failing input (same run as C1): the firing of the stale
debounced timer — an operation that is not `clearTrackLog` — replaces the
active log (same session `track-0`) by the stale snapshot, shrinking its
photo list from one element to zero. -/
theorem c6_stale_snapshot_shrinks :
    cexMid.1.trackLog.map (fun t => t.photos.length) = some 1 ∧
    cexFinal.1.trackLog.map (fun t => t.photos.length) = some 0 ∧
    cexMid.1.trackLog.map TrackLog.id = some "track-0" ∧
    cexFinal.1.trackLog.map TrackLog.id = some "track-0" := by
  decide

end GeoSnap

